import Mathlib

/-!
Verification of `unlock.py`: an interactive script that authenticates
against a vManage controller, lists user accounts, and issues an unlock
(password-reset) call for a selected user.

The script is embedded shallowly:

* HTTP traffic is modelled by passing the environment's responses as explicit
  arguments; each step returns the request it issued and the lines it printed.
* Python `int(s)` is modelled by `pyInt` (optional surrounding whitespace,
  optional sign, decimal digits with single underscores between digits).
* Python list indexing `l[i]` (which accepts negative indices counting from
  the end) is modelled by `pyIndex`.
* Python `str` rendering of a natural number is modelled by `pyStr`.
* Printed output is the list of the strings passed to `print` calls.
-/

/-! ## Python primitives -/

/-- Numeric value of a decimal digit character, `none` for any other char. -/
def digitVal (c : Char) : Option Nat :=
  if c.isDigit then some (c.toNat - Char.toNat (Char.ofNat 48)) else none

/-- Parse the tail of a Python `digitpart`: digits with single underscores
allowed between digits (as Python `int` accepts, e.g. `int "1_0" = 10`). -/
def parseDigitsAux : List Char → Nat → Option Nat
  | [], acc => some acc
  | Char.ofNat 95 :: c :: cs, acc =>
    match digitVal c with
    | some d => parseDigitsAux cs (acc * 10 + d)
    | none => none
  | [Char.ofNat 95], _ => none
  | c :: cs, acc =>
    match digitVal c with
    | some d => parseDigitsAux cs (acc * 10 + d)
    | none => none

/-- Parse a nonempty Python `digitpart` (first char must be a digit). -/
def parseDigitpart : List Char → Option Nat
  | [] => none
  | c :: cs =>
    match digitVal c with
    | some d => parseDigitsAux cs d
    | none => none

/-- Drop whitespace from both ends of a char list. -/
def trimWs (cs : List Char) : List Char :=
  ((cs.dropWhile Char.isWhitespace).reverse.dropWhile Char.isWhitespace).reverse

/-- Model of Python `int(s)`: strips surrounding whitespace, accepts an
optional sign followed by a decimal digitpart; `none` models `ValueError`. -/
def pyInt (s : String) : Option Int :=
  match trimWs s.toList with
  | Char.ofNat 45 :: rest => (parseDigitpart rest).map (fun n => -(n : Int))
  | Char.ofNat 43 :: rest => (parseDigitpart rest).map (fun n => (n : Int))
  | rest => (parseDigitpart rest).map (fun n => (n : Int))

/-- Model of Python list indexing `l[i]`: a negative index counts from the
end of the list; `none` models `IndexError`. -/
def pyIndex {α : Type} (l : List α) (i : Int) : Option α :=
  let j : Int := if i < 0 then i + l.length else i
  if j < 0 then none else l.get? j.toNat

/-- Digit character for a value below 10. -/
def digitChar (d : Nat) : Char := Char.ofNat (48 + d)

/-- Accumulate the decimal digits of `n` in front of `acc`; `fuel` bounds the
number of digits (any `fuel ≥ n` is enough) so the recursion is structural. -/
def natDigitsAux : Nat → Nat → List Char → List Char
  | _, 0, acc => acc
  | 0, _ + 1, acc => acc
  | fuel + 1, n + 1, acc =>
    natDigitsAux fuel ((n + 1) / 10) (digitChar ((n + 1) % 10) :: acc)

/-- Model of Python `str` on a nonnegative integer (decimal rendering). -/
def pyStr (n : Nat) : String :=
  if n = 0 then "0" else String.mk (natDigitsAux n n [])

/-- ASCII upper-casing of one character. -/
def pyUpperChar (c : Char) : Char :=
  if 97 ≤ c.toNat ∧ c.toNat ≤ 122 then Char.ofNat (c.toNat - 32) else c

/-- Model of Python `str.upper()` (ASCII range, which covers the script's
`Y`/`YES`/`N`/`NO` comparisons). -/
def pyUpper (s : String) : String := String.mk (s.toList.map pyUpperChar)

/-! ## Data model

HTTP responses are supplied by the environment. `Response.cookies` is the
opaque cookie jar returned by the server; for the user-listing endpoint the
parsed JSON body (`data`, a list of records each carrying a `userName`) is
supplied alongside the raw status and text. -/

structure Response where
  status_code : Nat
  text : String
  cookies : String
deriving DecidableEq, Repr

structure UserRecord where
  userName : String
  otherFields : List (String × String)
deriving DecidableEq, Repr

structure UsersResponse where
  status_code : Nat
  text : String
  data : List UserRecord
deriving DecidableEq, Repr

/-- The four responses the environment gives to the four requests a full run
of the script can issue, in script order. -/
structure RunEnv where
  login : Response
  token : Response
  userList : UsersResponse
  unlock : Response
deriving DecidableEq, Repr

/-- The outbound HTTP requests the script builds, with the fields the source
fills in: URL, Content-Type header where one is set, the `X-XSRF-TOKEN`
header and cookie jar where they are attached (either may still be the
class-level default `None`), the form/JSON body fields, and the TLS
verification flag. -/
inductive Request where
  | post_login (url : String) (contentType : String) (j_username : String)
      (j_password : String) (verify : Bool)
  | get_token (url : String) (cookies : Option String) (verify : Bool)
  | get_users (url : String) (contentType : String) (xsrfToken : Option String)
      (cookies : Option String) (verify : Bool)
  | post_unlock (url : String) (contentType : String) (xsrfToken : Option String)
      (bodyUserName : String) (cookies : Option String) (verify : Bool)
deriving DecidableEq, Repr

/-- State of a `vManage` object: the fields assigned in `__init__` plus the
class-level attributes `authentication_cookie = None`, `xsrf_token = None`,
`users = []` (modelled per instance with those defaults). -/
structure vManage where
  ip_address : String
  username : String
  password : String
  verify : Bool
  base_url : String
  authentication_cookie : Option String
  xsrf_token : Option String
  users : List String
deriving DecidableEq, Repr

/-! ## Session methods

Each method takes the environment's response for the single request it
issues and returns the updated object, the request, and the printed lines.
`input()` prompt strings are not part of the printed-output model. -/

def vManage.get_cookie (self : vManage) (response : Response) :
    vManage × Request × List String :=
  let url := self.base_url ++ "/j_security_check"
  let req := Request.post_login url "application/x-www-form-urlencoded"
    self.username self.password self.verify
  let out := ["Authenticating...",
              "Response status code: " ++ pyStr response.status_code]
  if response.status_code ≠ 200 then
    (self, req, out ++ ["Error:\n" ++ response.text])
  else
    ({ self with authentication_cookie := some response.cookies }, req, out)

def vManage.get_xsrf_token (self : vManage) (response : Response) :
    vManage × Request × List String :=
  let url := self.base_url ++ "/dataservice/client/token"
  let req := Request.get_token url self.authentication_cookie self.verify
  let out := ["Requesting XSRF token...",
              "Response status code: " ++ pyStr response.status_code]
  if response.status_code ≠ 200 then
    (self, req, out ++ ["Error:\n" ++ response.text])
  else
    ({ self with xsrf_token := some response.text }, req, out)

def vManage.get_users (self : vManage) (response : UsersResponse) :
    vManage × Request × List String :=
  let url := self.base_url ++ "/dataservice/admin/user"
  let req := Request.get_users url "application/json" self.xsrf_token
    self.authentication_cookie self.verify
  if response.status_code ≠ 200 then
    (self, req, ["Error:\n" ++ response.text])
  else
    ({ self with users := response.data.map UserRecord.userName }, req, [])

/-- The `__init__` of `vManage`: stores the constructor arguments, builds
`base_url`, then unconditionally runs `get_cookie`, `get_xsrf_token` and
`get_users` in sequence. Returns the object, the requests issued in order,
and the printed lines. -/
def vManage.init (ip_address username password : String) (env : RunEnv)
    (port : Nat := 443) (verify : Bool := false) :
    vManage × List Request × List String :=
  let st0 : vManage :=
    { ip_address := ip_address, username := username, password := password,
      verify := verify,
      base_url := "https://" ++ ip_address ++ ":" ++ pyStr port,
      authentication_cookie := none, xsrf_token := none, users := [] }
  let r1 := st0.get_cookie env.login
  let r2 := r1.1.get_xsrf_token env.token
  let r3 := r2.1.get_users env.userList
  (r3.1, [r1.2.1, r2.2.1, r3.2.1], r1.2.2 ++ r2.2.2 ++ r3.2.2)

/-- The unlock operation (`unlock_user` in the source): builds the reset
request for `user` (default `"netadmin"`) and reports success exactly when
the response status is 200, otherwise prints the status and body. -/
def unlock_user (pod : vManage) (response : Response)
    (user : String := "netadmin") : Request × List String :=
  let url := pod.base_url ++ "/dataservice/admin/user/reset"
  let req := Request.post_unlock url "application/json" pod.xsrf_token user
    pod.authentication_cookie pod.verify
  if response.status_code = 200 then
    (req, ["User " ++ user ++ " unlocked successfully!"])
  else
    (req, ["Status code: " ++ pyStr response.status_code,
           "Error description: " ++ response.text])

/-! ## Interactive selection loops

Each loop iteration consumes one `(selection, confirmation)` input pair. The
`try` block around `xs[int(selection)-1]` is modelled by `TryResult`: the two
`except` clauses of the source catch exactly `ValueError` (from `int`) and
`IndexError` (from the subscript), each with its diagnostic lines. -/

inductive TryResult (α : Type) where
  | ok (val : α)
  | valueError (lines : List String)
  | indexError (lines : List String)
deriving DecidableEq, Repr

/-- One attempt of the pod-selection `try` block: `pod = pods[int(s)-1]`. -/
def pod_try (pods : List String) (selection : String) : TryResult String :=
  match pyInt selection with
  | none =>
    TryResult.valueError ["> \x27" ++ selection ++ "\x27 is not a number!"]
  | some n =>
    match pyIndex pods (n - 1) with
    | none =>
      TryResult.indexError
        ["> \x27" ++ selection ++ "\x27 is not a valid pod number!",
         "> Please recheck your Pod number from \x27Self Serve Labs\x27 GUI"]
    | some p => TryResult.ok p

/-- One attempt of the user-selection `try` block: `user = users[int(s)-1]`. -/
def user_try (users : List String) (selection : String) : TryResult String :=
  match pyInt selection with
  | none =>
    TryResult.valueError ["> \x27" ++ selection ++ "\x27 is not a number!"]
  | some n =>
    match pyIndex users (n - 1) with
    | none =>
      TryResult.indexError
        ["> \x27" ++ selection ++ "\x27 is not a valid user number!",
         "> Please recheck your User\x27s number from the list"]
    | some u => TryResult.ok u

/-- `pod_try` accepted the input, i.e. the script proceeds to the
confirmation prompt instead of re-prompting. -/
def pod_accepts (pods : List String) (selection : String) : Bool :=
  match pod_try pods selection with
  | TryResult.ok _ => true
  | _ => false

/-- `user_try` accepted the input (proceeds to the confirmation prompt). -/
def user_accepts (users : List String) (selection : String) : Bool :=
  match user_try users selection with
  | TryResult.ok _ => true
  | _ => false

/-- The pod-selection `while True` loop, run on a finite list of input
pairs. Returns the chosen `(selection, pod)` when some iteration breaks
(confirmation `Y`/`YES`), `none` when the inputs run out (the script would
still be prompting), together with the printed lines. -/
def pod_loop (pods : List String) :
    List (String × String) → Option (String × String) × List String
  | [] => (none, [])
  | (s, c) :: rest =>
    match pod_try pods s with
    | TryResult.valueError ls =>
      let r := pod_loop pods rest
      (r.1, ls ++ r.2)
    | TryResult.indexError ls =>
      let r := pod_loop pods rest
      (r.1, ls ++ r.2)
    | TryResult.ok p =>
      let up := pyUpper c
      if up = "Y" ∨ up = "YES" then (some (s, p), [])
      else if up = "N" ∨ up = "NO" then pod_loop pods rest
      else
        let r := pod_loop pods rest
        (r.1, "Not a valid option." :: r.2)

/-- Header printed by each user-loop iteration: the source interpolates the
current `selection` variable (the pod selection on the first iteration, the
previous user input afterwards) and enumerates the users from 1. -/
def user_header (sel : String) (users : List String) : List String :=
  ("\nThe users of pod " ++ sel ++ ":") ::
    users.enum.map (fun p => pyStr (p.1 + 1) ++ ". " ++ p.2)

/-- The user-selection `while True` loop; `sel` is the current value of the
`selection` variable, reassigned by every iteration's `input()`. -/
def user_loop (users : List String) (sel : String) :
    List (String × String) → Option (String × String) × List String
  | [] => (none, [])
  | (s, c) :: rest =>
    let hdr := user_header sel users
    match user_try users s with
    | TryResult.valueError ls =>
      let r := user_loop users s rest
      (r.1, hdr ++ ls ++ r.2)
    | TryResult.indexError ls =>
      let r := user_loop users s rest
      (r.1, hdr ++ ls ++ r.2)
    | TryResult.ok u =>
      let up := pyUpper c
      if up = "Y" ∨ up = "YES" then (some (s, u), hdr)
      else if up = "N" ∨ up = "NO" then
        let r := user_loop users s rest
        (r.1, hdr ++ r.2)
      else
        let r := user_loop users s rest
        (r.1, hdr ++ ["Not a valid option."] ++ r.2)

/-- The `"*" * 30` separator line. -/
def stars : String := "******************************"

/-- The `__main__` block after `get_pod_ips`: pod selection, `vManage`
construction (three requests), user selection over the stored user list,
then the unlock call. Returns the requests issued and the printed lines; if
a selection loop exhausts its inputs without a confirmed choice, the run is
still at that prompt and no later request is issued. -/
def main_run (pods : List String) (pw : String) (env : RunEnv)
    (podInputs userInputs : List (String × String)) :
    List Request × List String :=
  let intro := ["You are about to unlock a user account in vManage."]
  match pod_loop pods podInputs with
  | (none, plines) => ([], intro ++ plines)
  | (some (sel, pod), plines) =>
    let ivm := vManage.init pod "admin" pw env
    let out1 := intro ++ plines ++
      [stars, "Your are about to connect to pod " ++ sel ++ " in " ++ pod] ++
      ivm.2.2 ++ [stars]
    match user_loop ivm.1.users sel userInputs with
    | (none, ulines) => (ivm.2.1, out1 ++ ulines)
    | (some (_, user), ulines) =>
      let ur := unlock_user ivm.1 env.unlock user
      (ivm.2.1 ++ [ur.1],
       out1 ++ ulines ++ [stars, "Starting to unlock...\n"] ++ ur.2)

/-! ## Configuration loading -/

/-- Parsed YAML document shapes relevant to `get_pod_ips`. -/
inductive Yaml where
  | nullv : Yaml
  | str (s : String) : Yaml
  | seq (items : List Yaml) : Yaml
  | dict (entries : List (String × Yaml)) : Yaml

/-- Python `dict` lookup over the parsed mapping (first matching key). -/
def yamlLookup : List (String × Yaml) → String → Option Yaml
  | [], _ => none
  | (k, v) :: rest, key => if k = key then some v else yamlLookup rest key

/-- Result of a Python call that may raise: either a value or an uncaught
exception, named by its Python exception class. -/
inductive PyOutcome (α : Type) where
  | ok (val : α)
  | raises (exn : String)

/-- The `get_pod_ips` function. Its environment is the outcome of opening
and YAML-parsing the file: `none` when the file cannot be opened,
`Except.error` when parsing fails, otherwise the parsed document. The
function performs `pods["Pods"]` with no exception handling and prints
nothing; the `List String` component is its (always empty) printed output. -/
def get_pod_ips (file : Option (Except String Yaml)) :
    PyOutcome Yaml × List String :=
  match file with
  | none => (PyOutcome.raises "OSError", [])
  | some (Except.error _) => (PyOutcome.raises "YAMLError", [])
  | some (Except.ok y) =>
    match y with
    | Yaml.dict entries =>
      match yamlLookup entries "Pods" with
      | some v => (PyOutcome.ok v, [])
      | none => (PyOutcome.raises "KeyError", [])
    | _ => (PyOutcome.raises "TypeError", [])

/-! ## Auxiliary definitions for the theorems -/

/-- The line `unlock_user` prints on success, for some username. -/
def isUnlockSuccessMsg (line : String) : Prop :=
  ∃ u, line = "User " ++ u ++ " unlocked successfully!"

/-- First character of a string, if any. -/
def firstChar (s : String) : Option Char := s.data.head?

/-- Sample `vManage` object for concrete instantiations. -/
def sampleVM : vManage :=
  { ip_address := "10.0.0.1", username := "admin", password := "pw",
    verify := false, base_url := "https://10.0.0.1:443",
    authentication_cookie := none, xsrf_token := none, users := [] }

def isTokenReq : Request → Bool
  | Request.get_token _ _ _ => true
  | _ => false

def isUsersReq : Request → Bool
  | Request.get_users _ _ _ _ _ => true
  | _ => false

def isUnlockReq : Request → Bool
  | Request.post_unlock _ _ _ _ _ _ => true
  | _ => false

/-- Environment with failed login and token fetch but a served user list. -/
def envLogin403 : RunEnv :=
  { login := { status_code := 403, text := "forbidden", cookies := "c" },
    token := { status_code := 403, text := "no token", cookies := "" },
    userList := { status_code := 200, text := "",
                  data := [{ userName := "netadmin", otherFields := [] }] },
    unlock := { status_code := 200, text := "", cookies := "" } }

/-- Environment in which every endpoint rejects with 403. -/
def env403 : RunEnv :=
  { login := { status_code := 403, text := "forbidden", cookies := "" },
    token := { status_code := 403, text := "", cookies := "" },
    userList := { status_code := 403, text := "", data := [] },
    unlock := { status_code := 403, text := "", cookies := "" } }

/-! ## Sanity checks of the Python primitive models -/

example : pyInt "12" = some 12 := by decide
example : pyInt " -3 " = some (-3) := by decide
example : pyInt "abc" = none := by decide
example : pyInt "" = none := by decide
example : pyInt "+4" = some 4 := by decide
example : pyInt "1_0" = some 10 := by decide
example : pyInt "-" = none := by decide
example : pyIndex ["a", "b", "c"] (-1) = some "c" := by decide
example : pyIndex ["a", "b", "c"] (-3) = some "a" := by decide
example : pyIndex ["a", "b", "c"] (-4) = none := by decide
example : pyIndex ["a", "b", "c"] 2 = some "c" := by decide
example : pyIndex ["a", "b", "c"] 3 = none := by decide
example : pyStr 0 = "0" := by decide
example : pyStr 403 = "403" := by decide
example : pyStr 10 = "10" := by decide

/-! ## Basic lemmas -/

/-- A list lookup by natural index succeeds exactly below the length. -/
theorem get?_isSome_len {α : Type} (l : List α) (n : Nat) :
    (l.get? n).isSome = true ↔ n < l.length := by
  rw [Option.isSome_iff_ne_none, Ne, List.get?_eq_none]
  omega

/-- Python indexing succeeds exactly on indices in `[-len, len)`. -/
theorem pyIndex_isSome_iff {α : Type} (l : List α) (i : Int) :
    (pyIndex l i).isSome = true ↔
      -(l.length : Int) ≤ i ∧ i < (l.length : Int) := by
  show (if (if i < 0 then i + l.length else i) < 0 then none
        else l.get? (if i < 0 then i + l.length else i).toNat).isSome = true ↔ _
  by_cases hneg : i < 0
  · rw [if_pos hneg]
    by_cases hj : i + (l.length : Int) < 0
    · rw [if_pos hj]
      simp only [Option.isSome_none, Bool.false_eq_true, false_iff]
      omega
    · rw [if_neg hj, get?_isSome_len]
      omega
  · rw [if_neg hneg, if_neg hneg, get?_isSome_len]
    omega

/-- A successful Python index is in particular a valid position. -/
theorem pyIndex_eq_none_of {α : Type} (l : List α) (i : Int)
    (h : ¬(-(l.length : Int) ≤ i ∧ i < (l.length : Int))) :
    pyIndex l i = none := by
  cases hpi : pyIndex l i with
  | none => rfl
  | some a =>
    exact absurd ((pyIndex_isSome_iff l i).mp (by rw [hpi]; rfl)) h

/-! ## Claims C1 and C7: selection validation -/

/-- C1 as stated is false: with one pod, the input `"0"` parses to the
integer `0`, which is outside `1..N`, yet the pod-selection step accepts it
(Python `pods[-1]` is the last pod) instead of re-prompting. -/
theorem C1_counterexample :
    pyInt "0" = some 0 ∧
    ¬(1 ≤ (0 : Int) ∧ (0 : Int) ≤ ((["10.10.0.1"] : List String).length : Int)) ∧
    pod_accepts ["10.10.0.1"] "0" = true := by
  decide

/-- C1 (amended): for a pod list of size N, the pod-selection step accepts an
integer input string with value v if and only if `1 - N ≤ v ≤ N` (Python
list indexing lets `0` and negative values down to `1 - N` select pods from
the end); every integer outside that range is rejected with the two-line
re-prompt diagnostic. -/
theorem C1_amended (pods : List String) (s : String) (v : Int)
    (hs : pyInt s = some v) :
    (pod_accepts pods s = true ↔
      1 - (pods.length : Int) ≤ v ∧ v ≤ (pods.length : Int)) ∧
    (¬(1 - (pods.length : Int) ≤ v ∧ v ≤ (pods.length : Int)) →
      ∃ ls, pod_try pods s = TryResult.indexError ls ∧ ls ≠ []) := by
  have key : (pyIndex pods (v - 1)).isSome = true ↔
      1 - (pods.length : Int) ≤ v ∧ v ≤ (pods.length : Int) := by
    rw [pyIndex_isSome_iff]
    omega
  constructor
  · rw [← key]
    unfold pod_accepts pod_try
    rw [hs]
    cases hpi : pyIndex pods (v - 1) <;> simp [hpi]
  · intro hout
    have hnone : pyIndex pods (v - 1) = none :=
      pyIndex_eq_none_of pods (v - 1) (by omega)
    have htry : pod_try pods s =
        TryResult.indexError
          ["> \x27" ++ s ++ "\x27 is not a valid pod number!",
           "> Please recheck your Pod number from \x27Self Serve Labs\x27 GUI"] := by
      unfold pod_try
      rw [hs]
      dsimp only
      rw [hnone]
    exact ⟨_, htry, by simp⟩

/-- Witness for C1 (amended): with two pods, input `"2"` is accepted. -/
theorem C1_amended_witness :
    pod_accepts ["10.10.0.1", "10.10.0.2"] "2" = true :=
  (C1_amended ["10.10.0.1", "10.10.0.2"] "2" 2 (by decide)).1.mpr (by decide)

/-- C7 as stated is false: the input `"-1"` is out of range `1..N` for the
two-user list, yet the user-selection step catches nothing, prints no
diagnostic, and proceeds (Python `users[-2]` is the first user); with a `Y`
confirmation the loop even terminates with that user. -/
theorem C7_counterexample :
    pyInt "-1" = some (-1) ∧
    ¬(1 ≤ (-1 : Int) ∧
      (-1 : Int) ≤ ((["netadmin", "admin2"] : List String).length : Int)) ∧
    user_try ["netadmin", "admin2"] "-1" = TryResult.ok "netadmin" ∧
    (user_loop ["netadmin", "admin2"] "1" [("-1", "Y")]).1 =
      some ("-1", "netadmin") := by
  decide

/-- C7 (amended): in both the pod prompt and the user prompt, for every
non-numeric selection input, and every integer input whose value lies
outside `1 - N .. N`, the program does not crash: the `ValueError` or
`IndexError` is caught, a nonempty diagnostic is printed, and the loop goes
on to the remaining inputs (re-prompt). -/
theorem C7_amended :
    (∀ (pods : List String) (s c : String) (rest : List (String × String)),
      (pyInt s = none ∨ ∃ v, pyInt s = some v ∧
        ¬(1 - (pods.length : Int) ≤ v ∧ v ≤ (pods.length : Int))) →
      ∃ ls, ls ≠ [] ∧
        (pod_try pods s = TryResult.valueError ls ∨
          pod_try pods s = TryResult.indexError ls) ∧
        (pod_loop pods ((s, c) :: rest)).1 = (pod_loop pods rest).1 ∧
        (pod_loop pods ((s, c) :: rest)).2 = ls ++ (pod_loop pods rest).2) ∧
    (∀ (users : List String) (s c sel : String) (rest : List (String × String)),
      (pyInt s = none ∨ ∃ v, pyInt s = some v ∧
        ¬(1 - (users.length : Int) ≤ v ∧ v ≤ (users.length : Int))) →
      ∃ ls, ls ≠ [] ∧
        (user_try users s = TryResult.valueError ls ∨
          user_try users s = TryResult.indexError ls) ∧
        (user_loop users sel ((s, c) :: rest)).1 = (user_loop users s rest).1 ∧
        (user_loop users sel ((s, c) :: rest)).2 =
          user_header sel users ++ ls ++ (user_loop users s rest).2) := by
  constructor
  · intro pods s c rest h
    rcases h with h | ⟨v, hv, hout⟩
    · refine ⟨["> \x27" ++ s ++ "\x27 is not a number!"], by simp, ?_, ?_, ?_⟩
      · left
        unfold pod_try
        rw [h]
      · simp [pod_loop, pod_try, h]
      · simp [pod_loop, pod_try, h]
    · have hnone : pyIndex pods (v - 1) = none :=
        pyIndex_eq_none_of pods (v - 1) (by omega)
      refine ⟨["> \x27" ++ s ++ "\x27 is not a valid pod number!",
               "> Please recheck your Pod number from \x27Self Serve Labs\x27 GUI"],
          by simp, ?_, ?_, ?_⟩
      · right
        unfold pod_try
        rw [hv]
        dsimp only
        rw [hnone]
      · simp [pod_loop, pod_try, hv, hnone]
      · simp [pod_loop, pod_try, hv, hnone]
  · intro users s c sel rest h
    rcases h with h | ⟨v, hv, hout⟩
    · refine ⟨["> \x27" ++ s ++ "\x27 is not a number!"], by simp, ?_, ?_, ?_⟩
      · left
        unfold user_try
        rw [h]
      · simp [user_loop, user_try, h]
      · simp [user_loop, user_try, h]
    · have hnone : pyIndex users (v - 1) = none :=
        pyIndex_eq_none_of users (v - 1) (by omega)
      refine ⟨["> \x27" ++ s ++ "\x27 is not a valid user number!",
               "> Please recheck your User\x27s number from the list"],
          by simp, ?_, ?_, ?_⟩
      · right
        unfold user_try
        rw [hv]
        dsimp only
        rw [hnone]
      · simp [user_loop, user_try, hv, hnone]
      · simp [user_loop, user_try, hv, hnone]

/-- Witness for C7 (amended): the pod prompt re-prompts on the non-numeric
input `"x"`, and the user prompt re-prompts on the out-of-range input
`"5"` against a single-user list. -/
theorem C7_amended_witness :
    (pod_loop ["10.10.0.1"] [("x", "Y")]).1 = (pod_loop ["10.10.0.1"] []).1 ∧
    (user_loop ["netadmin"] "1" [("5", "Y")]).1 = (user_loop ["netadmin"] "5" []).1 := by
  constructor
  · obtain ⟨ls, _, _, h3, _⟩ :=
      C7_amended.1 ["10.10.0.1"] "x" "Y" [] (Or.inl (by decide))
    exact h3
  · obtain ⟨ls, _, _, h3, _⟩ :=
      C7_amended.2 ["netadmin"] "5" "Y" "1" [] (Or.inr ⟨5, by decide, by decide⟩)
    exact h3

/-! ## The unlock success message -/

/-- Appending on the right keeps the first character. -/
theorem firstChar_append (s t : String) (c : Char)
    (h : firstChar s = some c) : firstChar (s ++ t) = some c := by
  unfold firstChar at *
  rw [String.data_append, List.head?_append, h]
  rfl

/-- Every unlock success message starts with the letter `U`. -/
theorem successMsg_firstChar (line : String) (h : isUnlockSuccessMsg line) :
    firstChar line = some 'U' := by
  obtain ⟨u, rfl⟩ := h
  exact firstChar_append _ _ _ (firstChar_append "User " u 'U' rfl)

/-- A line whose first character is not `U` is not the success message. -/
theorem not_successMsg_of_firstChar (line : String) (c : Char)
    (h : firstChar line = some c) (hc : c ≠ 'U') :
    ¬ isUnlockSuccessMsg line := by
  intro hmsg
  rw [successMsg_firstChar line hmsg] at h
  injection h with h
  exact hc h.symm

/-! ## Claim C4: unlock result reporting -/

/-- C4: the unlock step reports success exactly when the response status is
200 (the code's success status); for every other status it prints the status
code and the response body and no line of its output is a success message. -/
theorem C4_unlock_reporting (pod : vManage) (response : Response)
    (user : String) :
    (("User " ++ user ++ " unlocked successfully!") ∈
        (unlock_user pod response user).2 ↔ response.status_code = 200) ∧
    (response.status_code ≠ 200 →
      (unlock_user pod response user).2 =
        ["Status code: " ++ pyStr response.status_code,
         "Error description: " ++ response.text] ∧
      ∀ l ∈ (unlock_user pod response user).2, ¬ isUnlockSuccessMsg l) := by
  by_cases h : response.status_code = 200
  · refine ⟨by simp [unlock_user, h], fun hne => absurd h hne⟩
  · have hlines : (unlock_user pod response user).2 =
        ["Status code: " ++ pyStr response.status_code,
         "Error description: " ++ response.text] := by
      simp [unlock_user, h]
    have hnot : ∀ l ∈ (unlock_user pod response user).2,
        ¬ isUnlockSuccessMsg l := by
      intro l hl
      rw [hlines] at hl
      simp only [List.mem_cons, List.not_mem_nil, or_false] at hl
      rcases hl with rfl | rfl
      · exact not_successMsg_of_firstChar _ 'S'
          (firstChar_append "Status code: " _ 'S' rfl) (by decide)
      · exact not_successMsg_of_firstChar _ 'E'
          (firstChar_append "Error description: " _ 'E' rfl) (by decide)
    exact ⟨⟨fun hmem => absurd ⟨user, rfl⟩ (hnot _ hmem),
            fun he => absurd he h⟩,
           fun _ => ⟨hlines, hnot⟩⟩

/-- Witness for C4 at a success and at a failure response. -/
theorem C4_unlock_reporting_witness :
    ("User " ++ "netadmin" ++ " unlocked successfully!") ∈
      (unlock_user
        { ip_address := "10.0.0.1", username := "admin", password := "pw",
          verify := false, base_url := "https://10.0.0.1:443",
          authentication_cookie := none, xsrf_token := none, users := [] }
        { status_code := 200, text := "", cookies := "" } "netadmin").2 :=
  (C4_unlock_reporting _ _ "netadmin").1.mpr rfl

/-! ## Claim C6: authentication step -/

/-- C6: on a non-success login status the object is unchanged (in particular
the cookie stays at its `None` default) and the printed lines carry the
status code and the response body; on success the returned cookie is
stored. -/
theorem C6_get_cookie (st : vManage) (response : Response) :
    (response.status_code ≠ 200 →
      (st.get_cookie response).1 = st ∧
      ("Response status code: " ++ pyStr response.status_code) ∈
        (st.get_cookie response).2.2 ∧
      ("Error:\n" ++ response.text) ∈ (st.get_cookie response).2.2) ∧
    (response.status_code = 200 →
      (st.get_cookie response).1.authentication_cookie =
        some response.cookies) := by
  constructor
  · intro h
    refine ⟨by simp [vManage.get_cookie, h], ?_, ?_⟩ <;>
      simp [vManage.get_cookie, h]
  · intro h
    simp [vManage.get_cookie, h]

/-- Witness for C6: a 403 login leaves the object unchanged, a 200 login
stores the cookie. -/
theorem C6_get_cookie_witness :
    (sampleVM.get_cookie
        { status_code := 403, text := "forbidden", cookies := "c" }).1 =
      sampleVM ∧
    (sampleVM.get_cookie
        { status_code := 200, text := "", cookies := "c" }).1.authentication_cookie =
      some "c" :=
  ⟨((C6_get_cookie sampleVM _).1 (by decide)).1,
   (C6_get_cookie sampleVM _).2 rfl⟩

/-! ## Claim C8: user listing -/

/-- C8: on a successful user-listing response the stored username list has
the same length as the returned data list and lists the usernames in the
same order, position by position. -/
theorem C8_user_listing (st : vManage) (response : UsersResponse)
    (h : response.status_code = 200) :
    (st.get_users response).1.users.length = response.data.length ∧
    ∀ i : Nat, (st.get_users response).1.users.get? i =
      (response.data.get? i).map UserRecord.userName := by
  constructor
  · simp [vManage.get_users, h]
  · intro i
    simp [vManage.get_users, h, List.get?_map]

/-- Witness for C8 on a two-user response. -/
theorem C8_user_listing_witness :
    (sampleVM.get_users
      { status_code := 200, text := "",
        data := [{ userName := "netadmin", otherFields := [] },
                 { userName := "admin2", otherFields := [] }] }).1.users.length = 2 := by
  rw [(C8_user_listing sampleVM _ rfl).1]
  rfl

/-! ## Claim C9: configuration loading -/

/-- C9: when the file cannot be opened, cannot be parsed, or its parsed
content lacks the key `Pods` (including not being a mapping at all),
`get_pod_ips` raises an uncaught exception and prints nothing; when the key
is present it returns exactly the associated value, unchanged. -/
theorem C9_get_pod_ips (file : Option (Except String Yaml)) :
    ((file = none ∨ (∃ e, file = some (Except.error e)) ∨
      (∃ y, file = some (Except.ok y) ∧ ∀ entries, y ≠ Yaml.dict entries) ∨
      (∃ entries, file = some (Except.ok (Yaml.dict entries)) ∧
        yamlLookup entries "Pods" = none)) →
      ∃ exn, get_pod_ips file = (PyOutcome.raises exn, [])) ∧
    (∀ entries v, file = some (Except.ok (Yaml.dict entries)) →
      yamlLookup entries "Pods" = some v →
      get_pod_ips file = (PyOutcome.ok v, [])) := by
  constructor
  · rintro (rfl | ⟨e, rfl⟩ | ⟨y, rfl, hy⟩ | ⟨entries, rfl, hl⟩)
    · exact ⟨"OSError", rfl⟩
    · exact ⟨"YAMLError", rfl⟩
    · cases y with
      | dict entries => exact absurd rfl (hy entries)
      | nullv => exact ⟨"TypeError", rfl⟩
      | str s => exact ⟨"TypeError", rfl⟩
      | seq items => exact ⟨"TypeError", rfl⟩
    · exact ⟨"KeyError", by simp [get_pod_ips, hl]⟩
  · rintro entries v rfl hv
    simp [get_pod_ips, hv]

/-- Witness for C9: a well-formed file returns the `Pods` value unchanged. -/
theorem C9_get_pod_ips_witness :
    get_pod_ips
        (some (Except.ok (Yaml.dict [("Pods", Yaml.seq [Yaml.str "1.1.1.1"])]))) =
      (PyOutcome.ok (Yaml.seq [Yaml.str "1.1.1.1"]), []) :=
  (C9_get_pod_ips _).2 _ _ rfl rfl

/-! ## Claim C10: default unlock target -/

/-- C10: when no username argument is supplied, the unlock request's body
names the user `netadmin`, the parameter's default value. -/
theorem C10_default_user (pod : vManage) (response : Response) :
    (unlock_user pod response).1 =
      Request.post_unlock (pod.base_url ++ "/dataservice/admin/user/reset")
        "application/json" pod.xsrf_token "netadmin"
        pod.authentication_cookie pod.verify := by
  unfold unlock_user
  split_ifs <;> rfl

/-! ## Run-level lemmas -/

/-- The request part of `unlock_user` does not depend on the response. -/
theorem unlock_user_fst (pod : vManage) (response : Response) (user : String) :
    (unlock_user pod response user).1 =
      Request.post_unlock (pod.base_url ++ "/dataservice/admin/user/reset")
        "application/json" pod.xsrf_token user
        pod.authentication_cookie pod.verify := by
  unfold unlock_user
  split_ifs <;> rfl

/-- The three requests issued by `vManage.__init__`, whatever the response
statuses: login with the credentials, then token fetch carrying the cookie
obtained (or still `None`), then user listing carrying cookie and token. -/
theorem init_reqs_eq (ip u pw : String) (env : RunEnv) :
    (vManage.init ip u pw env).2.1 =
      [Request.post_login ("https://" ++ ip ++ ":" ++ pyStr 443 ++ "/j_security_check")
         "application/x-www-form-urlencoded" u pw false,
       Request.get_token ("https://" ++ ip ++ ":" ++ pyStr 443 ++ "/dataservice/client/token")
         (if env.login.status_code = 200 then some env.login.cookies else none) false,
       Request.get_users ("https://" ++ ip ++ ":" ++ pyStr 443 ++ "/dataservice/admin/user")
         "application/json"
         (if env.token.status_code = 200 then some env.token.text else none)
         (if env.login.status_code = 200 then some env.login.cookies else none)
         false] := by
  unfold vManage.init vManage.get_cookie vManage.get_xsrf_token vManage.get_users
  by_cases h1 : env.login.status_code = 200 <;>
    by_cases h2 : env.token.status_code = 200 <;>
    by_cases h3 : env.userList.status_code = 200 <;>
    simp [h1, h2, h3]

/-- Cookie, token, URL and verify flag of the object `__init__` returns. -/
theorem init_state_eq (ip u pw : String) (env : RunEnv) :
    (vManage.init ip u pw env).1.authentication_cookie =
      (if env.login.status_code = 200 then some env.login.cookies else none) ∧
    (vManage.init ip u pw env).1.xsrf_token =
      (if env.token.status_code = 200 then some env.token.text else none) ∧
    (vManage.init ip u pw env).1.base_url = "https://" ++ ip ++ ":" ++ pyStr 443 ∧
    (vManage.init ip u pw env).1.verify = false := by
  unfold vManage.init vManage.get_cookie vManage.get_xsrf_token vManage.get_users
  by_cases h1 : env.login.status_code = 200 <;>
    by_cases h2 : env.token.status_code = 200 <;>
    by_cases h3 : env.userList.status_code = 200 <;>
    simp [h1, h2, h3]

/-! ## Claim C2: authentication before unlock -/

/-- C2 as stated is false: in a run whose login and token fetch fail, the
unlock operation is still invoked, and its request carries the class-level
defaults — no session cookie and no CSRF token. -/
theorem C2_counterexample :
    Request.post_unlock "https://1.1.1.1:443/dataservice/admin/user/reset"
        "application/json" none "netadmin" none false ∈
      (main_run ["1.1.1.1"] "pw" envLogin403 [("1", "Y")] [("1", "Y")]).1 := by
  decide

/-- C2 (amended): in every run whose login and token responses both have
status 200, any unlock request issued carries the stored session cookie and
CSRF token (both populated); without that success the unlock request can go
out with the defaults still unset. -/
theorem C2_amended (pods : List String) (pw : String) (env : RunEnv)
    (podInputs userInputs : List (String × String))
    (sel pod : String) (plines : List String)
    (s2 u2 : String) (ulines : List String)
    (hl : env.login.status_code = 200) (ht : env.token.status_code = 200)
    (hpl : pod_loop pods podInputs = (some (sel, pod), plines))
    (hul : user_loop (vManage.init pod "admin" pw env).1.users sel userInputs =
      (some (s2, u2), ulines)) :
    ∀ url ct tk u ck vf,
      Request.post_unlock url ct tk u ck vf ∈
        (main_run pods pw env podInputs userInputs).1 →
      tk = some env.token.text ∧ ck = some env.login.cookies := by
  intro url ct tk u ck vf hmem
  have hstate := init_state_eq pod "admin" pw env
  unfold main_run at hmem
  rw [hpl] at hmem
  dsimp only at hmem
  rw [hul] at hmem
  dsimp only at hmem
  rw [init_reqs_eq, unlock_user_fst] at hmem
  simp only [List.mem_append, List.mem_cons, List.not_mem_nil, or_false,
    List.mem_singleton] at hmem
  rcases hmem with ((h | h | h) | h)
  · exact absurd h (by simp)
  · exact absurd h (by simp)
  · exact absurd h (by simp)
  · injection h with _ _ h3 _ h5 _
    subst h3
    subst h5
    rw [hstate.2.1, hstate.1, if_pos hl, if_pos ht]
    exact ⟨rfl, rfl⟩

/-- Witness for C2 (amended): an all-200 run unlocks with cookie and token. -/
theorem C2_amended_witness :
    (some "tok" : Option String) = some ({ status_code := 200, text := "tok", cookies := "" } : Response).text ∧
    (some "jar" : Option String) = some ({ status_code := 200, text := "", cookies := "jar" } : Response).cookies := by
  have henv : ∀ url ct tk u ck vf,
      Request.post_unlock url ct tk u ck vf ∈
        (main_run ["1.1.1.1"] "pw"
          { login := { status_code := 200, text := "", cookies := "jar" },
            token := { status_code := 200, text := "tok", cookies := "" },
            userList := { status_code := 200, text := "",
                          data := [{ userName := "netadmin", otherFields := [] }] },
            unlock := { status_code := 200, text := "", cookies := "" } }
          [("1", "Y")] [("1", "Y")]).1 →
      tk = some "tok" ∧ ck = some "jar" :=
    C2_amended ["1.1.1.1"] "pw" _ [("1", "Y")] [("1", "Y")] "1" "1.1.1.1" []
      "1" "netadmin" ["\nThe users of pod 1:", "1. netadmin"]
      rfl rfl (by decide) (by decide)
  exact henv "https://1.1.1.1:443/dataservice/admin/user/reset"
    "application/json" (some "tok") "netadmin" (some "jar") false (by decide)

/-! ## Claim C3: no abort after failed authentication -/

/-- C3: a run whose authentication returns a non-success status still issues
the token fetch, the user listing, and (once a user is confirmed) the unlock
request — the run does not abort at the failed step. -/
theorem C3_continues_after_failed_login (pods : List String) (pw : String)
    (env : RunEnv) (podInputs userInputs : List (String × String))
    (sel pod : String) (plines : List String)
    (s2 u2 : String) (ulines : List String)
    (hlogin : env.login.status_code ≠ 200)
    (hpl : pod_loop pods podInputs = (some (sel, pod), plines))
    (hul : user_loop (vManage.init pod "admin" pw env).1.users sel userInputs =
      (some (s2, u2), ulines)) :
    (∃ r ∈ (main_run pods pw env podInputs userInputs).1, isTokenReq r = true) ∧
    (∃ r ∈ (main_run pods pw env podInputs userInputs).1, isUsersReq r = true) ∧
    (∃ r ∈ (main_run pods pw env podInputs userInputs).1, isUnlockReq r = true) := by
  have hrun : (main_run pods pw env podInputs userInputs).1 =
      (vManage.init pod "admin" pw env).2.1 ++
        [(unlock_user (vManage.init pod "admin" pw env).1 env.unlock u2).1] := by
    unfold main_run
    rw [hpl]
    dsimp only
    rw [hul]
  rw [hrun, init_reqs_eq, unlock_user_fst]
  refine ⟨?_, ?_, ?_⟩ <;> simp [isTokenReq, isUsersReq, isUnlockReq]

/-- Witness for C3: with a 403 login the trace still has all three later
requests. -/
theorem C3_continues_after_failed_login_witness :
    ∃ r ∈ (main_run ["1.1.1.1"] "pw" envLogin403 [("1", "Y")] [("1", "Y")]).1,
      isTokenReq r = true := by
  obtain ⟨h1, _, _⟩ :=
    C3_continues_after_failed_login ["1.1.1.1"] "pw" envLogin403
      [("1", "Y")] [("1", "Y")] "1" "1.1.1.1" [] "1" "netadmin"
      ["\nThe users of pod 1:", "1. netadmin"] (by decide) (by decide) (by decide)
  exact h1

/-! ## Claim C5: output analysis

No print statement of the script other than the success branch of
`unlock_user` can produce a line of the form `User ... unlocked
successfully!`: every other line starts with a different character. -/

/-- A line with a first character other than `U` is harmless. -/
theorem ok_prefix (pre t : String) (c : Char) (h : firstChar pre = some c)
    (hc : c ≠ 'U') : ¬ isUnlockSuccessMsg (pre ++ t) :=
  not_successMsg_of_firstChar _ c (firstChar_append pre t c h) hc

/-- The digit accumulator only ever prepends digit characters. -/
theorem natDigitsAux_split : ∀ (fuel n : Nat) (acc : List Char),
    ∃ pre, natDigitsAux fuel n acc = pre ++ acc ∧
      ∀ c ∈ pre, ∃ d, d < 10 ∧ c = digitChar d := by
  intro fuel
  induction fuel with
  | zero =>
    intro n acc
    cases n with
    | zero => exact ⟨[], rfl, by simp⟩
    | succ m => exact ⟨[], rfl, by simp⟩
  | succ f ih =>
    intro n acc
    cases n with
    | zero => exact ⟨[], rfl, by simp⟩
    | succ m =>
      obtain ⟨pre, heq, hmem⟩ := ih ((m + 1) / 10) (digitChar ((m + 1) % 10) :: acc)
      refine ⟨pre ++ [digitChar ((m + 1) % 10)], ?_, ?_⟩
      · show natDigitsAux f ((m + 1) / 10) (digitChar ((m + 1) % 10) :: acc) = _
        rw [heq, List.append_assoc]
        rfl
      · intro c hc
        rcases List.mem_append.mp hc with h | h
        · exact hmem c h
        · rw [List.mem_singleton.mp h]
          exact ⟨(m + 1) % 10, Nat.mod_lt _ (by omega), rfl⟩

/-- Python decimal rendering starts with a digit character. -/
theorem pyStr_head (n : Nat) :
    ∃ d, d < 10 ∧ firstChar (pyStr n) = some (digitChar d) := by
  by_cases h : n = 0
  · subst h
    exact ⟨0, by omega, by decide⟩
  · obtain ⟨m, rfl⟩ : ∃ m, n = m + 1 := ⟨n - 1, by omega⟩
    have hstep : pyStr (m + 1) =
        String.mk (natDigitsAux m ((m + 1) / 10) [digitChar ((m + 1) % 10)]) := by
      unfold pyStr
      rw [if_neg h]
      rfl
    rw [hstep]
    obtain ⟨pre, heq, hmem⟩ :=
      natDigitsAux_split m ((m + 1) / 10) [digitChar ((m + 1) % 10)]
    rw [heq]
    cases pre with
    | nil => exact ⟨(m + 1) % 10, Nat.mod_lt _ (by omega), rfl⟩
    | cons a l =>
      obtain ⟨d, hd, rfl⟩ := hmem a (by simp)
      exact ⟨d, hd, rfl⟩

/-- Digit characters are not the letter `U`. -/
theorem digitChar_ne_U (d : Nat) (hd : d < 10) : digitChar d ≠ 'U' := by
  interval_cases d <;> decide

/-- A user enumeration line `i. name` is not a success message. -/
theorem enum_line_ok (k : Nat) (u : String) :
    ¬ isUnlockSuccessMsg (pyStr k ++ ". " ++ u) := by
  obtain ⟨d, hd, hc⟩ := pyStr_head k
  exact not_successMsg_of_firstChar _ _
    (firstChar_append _ _ _ (firstChar_append _ _ _ hc)) (digitChar_ne_U d hd)

/-- No header or enumeration line of the user loop is a success message. -/
theorem user_header_lines_ok (sel : String) (users : List String) :
    ∀ l ∈ user_header sel users, ¬ isUnlockSuccessMsg l := by
  intro l hl
  unfold user_header at hl
  rcases List.mem_cons.mp hl with rfl | hmem
  · exact ok_prefix ("\nThe users of pod " ++ sel) ":" (Char.ofNat 10)
      (firstChar_append "\nThe users of pod " sel _ rfl) (by decide)
  · obtain ⟨p, _, rfl⟩ := List.mem_map.mp hmem
    exact enum_line_ok (p.1 + 1) p.2

/-- The pod-selection try block has exactly three outcomes. -/
theorem pod_try_cases (pods : List String) (s : String) :
    (∃ p, pod_try pods s = TryResult.ok p) ∨
    pod_try pods s = TryResult.valueError
      ["> \x27" ++ s ++ "\x27 is not a number!"] ∨
    pod_try pods s = TryResult.indexError
      ["> \x27" ++ s ++ "\x27 is not a valid pod number!",
       "> Please recheck your Pod number from \x27Self Serve Labs\x27 GUI"] := by
  cases h : pyInt s with
  | none =>
    refine Or.inr (Or.inl ?_)
    unfold pod_try
    rw [h]
  | some n =>
    cases h2 : pyIndex pods (n - 1) with
    | none =>
      refine Or.inr (Or.inr ?_)
      unfold pod_try
      rw [h]
      dsimp only
      rw [h2]
    | some p =>
      refine Or.inl ⟨p, ?_⟩
      unfold pod_try
      rw [h]
      dsimp only
      rw [h2]

/-- The user-selection try block has exactly three outcomes. -/
theorem user_try_cases (users : List String) (s : String) :
    (∃ u, user_try users s = TryResult.ok u) ∨
    user_try users s = TryResult.valueError
      ["> \x27" ++ s ++ "\x27 is not a number!"] ∨
    user_try users s = TryResult.indexError
      ["> \x27" ++ s ++ "\x27 is not a valid user number!",
       "> Please recheck your User\x27s number from the list"] := by
  cases h : pyInt s with
  | none =>
    refine Or.inr (Or.inl ?_)
    unfold user_try
    rw [h]
  | some n =>
    cases h2 : pyIndex users (n - 1) with
    | none =>
      refine Or.inr (Or.inr ?_)
      unfold user_try
      rw [h]
      dsimp only
      rw [h2]
    | some u =>
      refine Or.inl ⟨u, ?_⟩
      unfold user_try
      rw [h]
      dsimp only
      rw [h2]

/-- No line printed by the pod-selection loop is a success message. -/
theorem pod_loop_lines_ok (pods : List String) :
    ∀ (inputs : List (String × String)) (l : String),
      l ∈ (pod_loop pods inputs).2 → ¬ isUnlockSuccessMsg l := by
  intro inputs
  induction inputs with
  | nil =>
    intro l hl
    simp [pod_loop] at hl
  | cons p rest ih =>
    obtain ⟨s, c⟩ := p
    intro l hl
    rcases pod_try_cases pods s with ⟨q, hq⟩ | hq | hq <;>
      simp only [pod_loop, hq] at hl
    · split_ifs at hl with h1 h2
      · simp at hl
      · exact ih l hl
      · rcases List.mem_cons.mp hl with rfl | hmem
        · exact not_successMsg_of_firstChar _ 'N' rfl (by decide)
        · exact ih l hmem
    · rcases List.mem_append.mp hl with hm | hm
      · rcases List.mem_singleton.mp hm with rfl
        exact ok_prefix ("> \x27" ++ s) "\x27 is not a number!" '>'
          (firstChar_append _ _ _ rfl) (by decide)
      · exact ih l hm
    · rcases List.mem_append.mp hl with hm | hm
      · rcases List.mem_cons.mp hm with rfl | hm2
        · exact ok_prefix ("> \x27" ++ s) "\x27 is not a valid pod number!" '>'
            (firstChar_append _ _ _ rfl) (by decide)
        · rcases List.mem_singleton.mp hm2 with rfl
          exact not_successMsg_of_firstChar _ '>' rfl (by decide)
      · exact ih l hm

/-- No line printed by the user-selection loop is a success message. -/
theorem user_loop_lines_ok (users : List String) :
    ∀ (inputs : List (String × String)) (sel l : String),
      l ∈ (user_loop users sel inputs).2 → ¬ isUnlockSuccessMsg l := by
  intro inputs
  induction inputs with
  | nil =>
    intro sel l hl
    simp [user_loop] at hl
  | cons p rest ih =>
    obtain ⟨s, c⟩ := p
    intro sel l hl
    rcases user_try_cases users s with ⟨q, hq⟩ | hq | hq <;>
      simp only [user_loop, hq] at hl
    · split_ifs at hl with h1 h2
      · exact user_header_lines_ok sel users l hl
      · rcases List.mem_append.mp hl with hm | hm
        · exact user_header_lines_ok sel users l hm
        · exact ih s l hm
      · rcases List.mem_append.mp hl with hm | hm
        · rcases List.mem_append.mp hm with hm2 | hm2
          · exact user_header_lines_ok sel users l hm2
          · rcases List.mem_singleton.mp hm2 with rfl
            exact not_successMsg_of_firstChar _ 'N' rfl (by decide)
        · exact ih s l hm
    · rcases List.mem_append.mp hl with hm | hm
      · rcases List.mem_append.mp hm with hm2 | hm2
        · exact user_header_lines_ok sel users l hm2
        · rcases List.mem_singleton.mp hm2 with rfl
          exact ok_prefix ("> \x27" ++ s) "\x27 is not a number!" '>'
            (firstChar_append _ _ _ rfl) (by decide)
      · exact ih s l hm
    · rcases List.mem_append.mp hl with hm | hm
      · rcases List.mem_append.mp hm with hm2 | hm2
        · exact user_header_lines_ok sel users l hm2
        · rcases List.mem_cons.mp hm2 with rfl | hm3
          · exact ok_prefix ("> \x27" ++ s) "\x27 is not a valid user number!" '>'
              (firstChar_append _ _ _ rfl) (by decide)
          · rcases List.mem_singleton.mp hm3 with rfl
            exact not_successMsg_of_firstChar _ '>' rfl (by decide)
      · exact ih s l hm

/-- No line printed by the authentication step is a success message. -/
theorem get_cookie_lines_ok (st : vManage) (resp : Response) :
    ∀ l ∈ (st.get_cookie resp).2.2, ¬ isUnlockSuccessMsg l := by
  intro l hl
  unfold vManage.get_cookie at hl
  split_ifs at hl <;>
    simp only [List.mem_append, List.mem_cons, List.not_mem_nil, or_false] at hl
  · rcases hl with (rfl | rfl) | rfl
    · exact not_successMsg_of_firstChar _ 'A' rfl (by decide)
    · exact ok_prefix "Response status code: " _ 'R' rfl (by decide)
    · exact ok_prefix "Error:\n" _ 'E' rfl (by decide)
  · rcases hl with rfl | rfl
    · exact not_successMsg_of_firstChar _ 'A' rfl (by decide)
    · exact ok_prefix "Response status code: " _ 'R' rfl (by decide)

/-- No line printed by the token fetch is a success message. -/
theorem get_xsrf_token_lines_ok (st : vManage) (resp : Response) :
    ∀ l ∈ (st.get_xsrf_token resp).2.2, ¬ isUnlockSuccessMsg l := by
  intro l hl
  unfold vManage.get_xsrf_token at hl
  split_ifs at hl <;>
    simp only [List.mem_append, List.mem_cons, List.not_mem_nil, or_false] at hl
  · rcases hl with (rfl | rfl) | rfl
    · exact not_successMsg_of_firstChar _ 'R' rfl (by decide)
    · exact ok_prefix "Response status code: " _ 'R' rfl (by decide)
    · exact ok_prefix "Error:\n" _ 'E' rfl (by decide)
  · rcases hl with rfl | rfl
    · exact not_successMsg_of_firstChar _ 'R' rfl (by decide)
    · exact ok_prefix "Response status code: " _ 'R' rfl (by decide)

/-- No line printed by the user listing is a success message. -/
theorem get_users_lines_ok (st : vManage) (resp : UsersResponse) :
    ∀ l ∈ (st.get_users resp).2.2, ¬ isUnlockSuccessMsg l := by
  intro l hl
  unfold vManage.get_users at hl
  split_ifs at hl
  · simp only [List.mem_cons, List.not_mem_nil, or_false] at hl
    rw [hl]
    exact ok_prefix "Error:\n" _ 'E' rfl (by decide)
  · simp at hl

/-- No line printed during `vManage.__init__` is a success message. -/
theorem init_lines_ok (ip u pw : String) (env : RunEnv) :
    ∀ l ∈ (vManage.init ip u pw env).2.2, ¬ isUnlockSuccessMsg l := by
  intro l hl
  unfold vManage.init at hl
  simp only [List.mem_append] at hl
  rcases hl with (h | h) | h
  · exact get_cookie_lines_ok _ _ l h
  · exact get_xsrf_token_lines_ok _ _ l h
  · exact get_users_lines_ok _ _ l h

/-- A failed login is reported: the status line and the error body both
appear in the `__init__` output. -/
theorem init_lines_mem (ip u pw : String) (env : RunEnv)
    (h : env.login.status_code ≠ 200) :
    ("Response status code: " ++ pyStr env.login.status_code) ∈
      (vManage.init ip u pw env).2.2 ∧
    ("Error:\n" ++ env.login.text) ∈ (vManage.init ip u pw env).2.2 := by
  unfold vManage.init vManage.get_cookie vManage.get_xsrf_token vManage.get_users
  by_cases h2 : env.token.status_code = 200 <;>
    by_cases h3 : env.userList.status_code = 200 <;>
      simp [h, h2, h3]

/-- On a non-success unlock response no printed line is a success message. -/
theorem unlock_lines_ok (pod : vManage) (resp : Response) (user : String)
    (h : resp.status_code ≠ 200) :
    ∀ l ∈ (unlock_user pod resp user).2, ¬ isUnlockSuccessMsg l := by
  intro l hl
  unfold unlock_user at hl
  rw [if_neg h] at hl
  simp only [List.mem_cons, List.not_mem_nil, or_false] at hl
  rcases hl with rfl | rfl
  · exact ok_prefix "Status code: " _ 'S' rfl (by decide)
  · exact ok_prefix "Error description: " _ 'E' rfl (by decide)

/-- When the unlock response is not a success, no line of the whole run's
output is an unlock success message. -/
theorem main_run_lines_ok (pods : List String) (pw : String) (env : RunEnv)
    (podInputs userInputs : List (String × String))
    (hunlock : env.unlock.status_code ≠ 200) :
    ∀ l ∈ (main_run pods pw env podInputs userInputs).2,
      ¬ isUnlockSuccessMsg l := by
  intro l hl
  rcases hpl : pod_loop pods podInputs with ⟨pres, plines⟩
  have hplines : (pod_loop pods podInputs).2 = plines := by rw [hpl]
  cases pres with
  | none =>
    unfold main_run at hl
    rw [hpl] at hl
    dsimp only at hl
    rcases List.mem_append.mp hl with hm | hm
    · rcases List.mem_singleton.mp hm with rfl
      exact not_successMsg_of_firstChar _ 'Y' rfl (by decide)
    · exact pod_loop_lines_ok pods podInputs l (by rw [hplines]; exact hm)
  | some selpod =>
    obtain ⟨sel, pod⟩ := selpod
    unfold main_run at hl
    rw [hpl] at hl
    dsimp only at hl
    have hout1 : ∀ x ∈ (["You are about to unlock a user account in vManage."] ++
        plines ++
        [stars, "Your are about to connect to pod " ++ sel ++ " in " ++ pod] ++
        (vManage.init pod "admin" pw env).2.2 ++ [stars]),
        ¬ isUnlockSuccessMsg x := by
      intro x hx
      rcases List.mem_append.mp hx with hm | hm
      · rcases List.mem_append.mp hm with hm2 | hm2
        · rcases List.mem_append.mp hm2 with hm3 | hm3
          · rcases List.mem_append.mp hm3 with hm4 | hm4
            · rcases List.mem_singleton.mp hm4 with rfl
              exact not_successMsg_of_firstChar _ 'Y' rfl (by decide)
            · exact pod_loop_lines_ok pods podInputs x (by rw [hplines]; exact hm4)
          · rcases List.mem_cons.mp hm3 with rfl | hm4
            · exact not_successMsg_of_firstChar _ '*' rfl (by decide)
            · rcases List.mem_singleton.mp hm4 with rfl
              exact not_successMsg_of_firstChar _ 'Y'
                (firstChar_append _ pod 'Y'
                  (firstChar_append _ " in " 'Y'
                    (firstChar_append "Your are about to connect to pod " sel 'Y' rfl)))
                (by decide)
        · exact init_lines_ok pod "admin" pw env x hm2
      · rcases List.mem_singleton.mp hm with rfl
        exact not_successMsg_of_firstChar _ '*' rfl (by decide)
    rcases hul : user_loop (vManage.init pod "admin" pw env).1.users sel userInputs
      with ⟨ures, ulines⟩
    have hulines :
        (user_loop (vManage.init pod "admin" pw env).1.users sel userInputs).2 =
          ulines := by rw [hul]
    cases ures with
    | none =>
      rw [hul] at hl
      dsimp only at hl
      rcases List.mem_append.mp hl with hm | hm
      · exact hout1 l hm
      · exact user_loop_lines_ok _ userInputs sel l (by rw [hulines]; exact hm)
    | some su =>
      obtain ⟨s2, u2⟩ := su
      rw [hul] at hl
      dsimp only at hl
      rcases List.mem_append.mp hl with hm | hm
      · rcases List.mem_append.mp hm with hm2 | hm2
        · rcases List.mem_append.mp hm2 with hm3 | hm3
          · exact hout1 l hm3
          · exact user_loop_lines_ok _ userInputs sel l (by rw [hulines]; exact hm3)
        · rcases List.mem_cons.mp hm2 with rfl | hm3
          · exact not_successMsg_of_firstChar _ '*' rfl (by decide)
          · rcases List.mem_singleton.mp hm3 with rfl
            exact not_successMsg_of_firstChar _ 'S' rfl (by decide)
      · exact unlock_lines_ok _ env.unlock u2 hunlock l hm

/-- Whatever the user-selection inputs, every `__init__` line appears in the
run output once a pod has been confirmed. -/
theorem main_run_contains_init (pods : List String) (pw : String) (env : RunEnv)
    (podInputs userInputs : List (String × String))
    (sel pod : String) (plines : List String)
    (hpl : pod_loop pods podInputs = (some (sel, pod), plines)) :
    ∀ x ∈ (vManage.init pod "admin" pw env).2.2,
      x ∈ (main_run pods pw env podInputs userInputs).2 := by
  intro x hx
  unfold main_run
  rw [hpl]
  dsimp only
  rcases hul : user_loop (vManage.init pod "admin" pw env).1.users sel userInputs
    with ⟨ures, ulines⟩
  cases ures with
  | none =>
    dsimp only
    simp only [List.mem_append]
    tauto
  | some su =>
    obtain ⟨s2, u2⟩ := su
    dsimp only
    simp only [List.mem_append]
    tauto

/-- C5 as stated is false: with a mocked controller that rejects the login
with 403 but answers 200 to the (cookie-less) unlock request, the run still
prints the unlock success message. -/
theorem C5_counterexample :
    envLogin403.login.status_code = 403 ∧
    ("User " ++ "netadmin" ++ " unlocked successfully!") ∈
      (main_run ["1.1.1.1"] "pw" envLogin403 [("1", "Y")] [("1", "Y")]).2 :=
  ⟨rfl, by decide⟩

/-- C5 (amended): a run whose login returns 403 reports the failure (status
line and error body appear in the output), and — provided the unlock
endpoint also returns a non-success status — never prints an unlock success
message; with a 200 from the unlock endpoint the success message can still
appear. -/
theorem C5_amended (pods : List String) (pw : String) (env : RunEnv)
    (podInputs userInputs : List (String × String))
    (sel pod : String) (plines : List String)
    (hlogin : env.login.status_code = 403)
    (hunlock : env.unlock.status_code ≠ 200)
    (hpl : pod_loop pods podInputs = (some (sel, pod), plines)) :
    ("Response status code: " ++ pyStr env.login.status_code) ∈
      (main_run pods pw env podInputs userInputs).2 ∧
    ("Error:\n" ++ env.login.text) ∈
      (main_run pods pw env podInputs userInputs).2 ∧
    ∀ l ∈ (main_run pods pw env podInputs userInputs).2,
      ¬ isUnlockSuccessMsg l := by
  have hne : env.login.status_code ≠ 200 := by omega
  have hmem := init_lines_mem pod "admin" pw env hne
  exact ⟨main_run_contains_init pods pw env podInputs userInputs sel pod plines hpl _ hmem.1,
         main_run_contains_init pods pw env podInputs userInputs sel pod plines hpl _ hmem.2,
         main_run_lines_ok pods pw env podInputs userInputs hunlock⟩

/-- Witness for C5 (amended) on an all-403 mock. -/
theorem C5_amended_witness :
    ("Error:\n" ++ env403.login.text) ∈
      (main_run ["1.1.1.1"] "pw" env403 [("1", "Y")] []).2 :=
  (C5_amended ["1.1.1.1"] "pw" env403 [("1", "Y")] [] "1" "1.1.1.1" []
    rfl (by decide) (by decide)).2.1
